import Mathlib

/-!
Verification development for the `nexus` Go library
(`github.com/AltairInglorious/nexus`): a reflection-driven SQL-like
query builder (`UseFilter`, `SelectQuery`), a table-keyed result cache
over `sync.Map`, generic data-access operations (`GeneralSelect`,
`GeneralSelectAny`, `GeneralCreate`, `GeneralUpdate`, `GeneralChange`,
`GeneralDelete`) from `db/main.go`, and the response-object pools of the
NATS transport layer.

The embedding is shallow: Go functions become Lean functions; a Go
panic is modelled as `Option.none`; the external SurrealDB client is
modelled at its interface boundary (the outcome of the network call and
of the decode step are parameters of the operations, exactly the cases
the Go code distinguishes).
-/

namespace Nexus

/-! ## Go scalar values seen by the filter compiler

`UseFilter` inspects each filter field with `reflect`, obtaining the
pointed-to scalar via `reflect.Indirect(fl).Interface()` and switching
on its dynamic type (`string`, `bool`, `int`; anything else falls out
of the `switch` with no case). `other` stands for any scalar of an
unsupported kind (float, time, ...). -/

inductive GoVal where
  | str (s : String)
  | boolean (b : Bool)
  | int (n : Int)
  | other (desc : String)
deriving DecidableEq

/-- One field of a filter struct, as `reflect` exposes it to
`UseFilter` (db/main.go lines 295-316): the Go identifier
(`typeOfT.Field(i).Name`, used by `FieldByName`), the raw `json` struct
tag (`""` when none is declared, matching `Tag.Get`), and the
pointed-to value (`none` models a nil pointer field, which the loop
skips). Per the filter input contract every field is an optional
scalar, i.e. a pointer. -/
structure FilterField where
  name : String
  tag : String
  value : Option GoVal
deriving DecidableEq

/-- The `f interface{}` argument of `UseFilter`. A Go interface value
is either the untyped nil interface, a typed nil pointer to a filter
struct, or a non-nil pointer to a filter struct (whose fields are in
declaration order). -/
inductive FilterArg where
  | nilIface
  | nilPtr
  | ptr (fields : List FilterField)
deriving DecidableEq

/-- Go's `strings.Split` on a one-character separator, character by
character: `splitChar sep "" = [""]`, and each occurrence of `sep`
starts a new group. -/
def splitChar (sep : Char) : List Char → List (List Char)
  | [] => [[]]
  | c :: rest =>
    match splitChar sep rest with
    | [] => if c = sep then [[], []] else [[c]]
    | g :: gs => if c = sep then [] :: g :: gs else (c :: g) :: gs

/-- `fln := strings.Split(typeOfT.Field(i).Tag.Get("json"), ",")[0]`
(db/main.go lines 299-301). Go's `strings.Split("", ",")` is `[""]`,
so a field with no declared tag gets the empty column name. -/
def tagName (fl : FilterField) : String :=
  ⟨(splitChar ',' fl.tag.data).headD []⟩

/-- Go `fmt` `%s` rendering of a scalar (used for the `GROUP BY`
argument, db/main.go line 323): a string prints verbatim, any other
kind prints fmt's mismatch form. -/
def fmtS : GoVal → String
  | .str s => s
  | .boolean b => "%!s(bool=" ++ toString b ++ ")"
  | .int n => "%!s(int=" ++ toString n ++ ")"
  | .other d => d

/-- Go `fmt` `%d` rendering of a scalar (used for the `LIMIT`
argument, db/main.go line 327). -/
def fmtD : GoVal → String
  | .str s => "%!d(string=" ++ s ++ ")"
  | .boolean b => "%!d(bool=" ++ toString b ++ ")"
  | .int n => toString n
  | .other d => d

/-- The predicate one loop iteration of `UseFilter` appends to `w`
(db/main.go lines 296-315): skip nil-pointer fields, skip the reserved
`limit`/`group` tag names, emit `col = 'v'` for strings, `col = %t`
for bools, `col = %d` for ints, and nothing for any other kind. -/
def fieldPred (fl : FilterField) : Option String :=
  match fl.value with
  | none => none
  | some v =>
    let fln := tagName fl
    if fln = "limit" ∨ fln = "group" then none
    else
      match v with
      | .str s => some (fln ++ " = '" ++ s ++ "'")
      | .boolean b => some (fln ++ " = " ++ toString b)
      | .int n => some (fln ++ " = " ++ toString n)
      | .other _ => none

/-- `v.FieldByName(n)` over the modelled struct: the field with the
given Go identifier, if any. -/
def fieldByName (fields : List FilterField) (n : String) : Option FilterField :=
  fields.find? fun fl => fl.name = n

/-- `UseFilter` (db/main.go lines 285-331). `none` models a panic:
`reflect.ValueOf(f).IsNil()` panics on the zero `reflect.Value` when
`f` is the untyped nil interface. For a typed nil pointer `IsNil()` is
true and the base query is returned unchanged. Otherwise the `WHERE`
clause is built from the fields in declaration order, then a
`GROUP BY` clause is appended for a non-nil field named `Group`, then
a `LIMIT` clause for a non-nil field named `Limit`. -/
def UseFilter (f : FilterArg) (q : String) : Option String :=
  match f with
  | .nilIface => none
  | .nilPtr => some q
  | .ptr fields =>
    let w := fields.filterMap fieldPred
    let q1 := if w = [] then q else q ++ " WHERE " ++ String.intercalate " AND " w
    let q2 :=
      match fieldByName fields "Group" with
      | some fl =>
        match fl.value with
        | some v => q1 ++ " GROUP BY " ++ fmtS v
        | none => q1
      | none => q1
    let q3 :=
      match fieldByName fields "Limit" with
      | some fl =>
        match fl.value with
        | some v => q2 ++ " LIMIT " ++ fmtD v
        | none => q2
      | none => q2
    some q3

/-! ## Query descriptors -/

/-- `SelectQuery` (db/main.go lines 21-25). `Filter` has Go type `any`
and defaults to the untyped nil interface. -/
structure SelectQuery where
  TableName : String
  Fields : List String
  Filter : FilterArg
deriving DecidableEq

/-- `NewSelectAll` (db/main.go lines 41-45). -/
def NewSelectAll (t : String) : SelectQuery :=
  { TableName := t, Fields := [], Filter := .nilIface }

/-- `NewSelect` (db/main.go lines 49-54). -/
def NewSelect (t : String) (f : List String) : SelectQuery :=
  { TableName := t, Fields := f, Filter := .nilIface }

/-- `SelectQuery.WithFilter` (db/main.go lines 58-64). The `f == nil`
guard is true only for the untyped nil interface; a typed nil pointer
is stored. -/
def SelectQuery.WithFilter (s : SelectQuery) (f : FilterArg) : SelectQuery :=
  if f = .nilIface then s else { s with Filter := f }

/-- `SelectQuery.String` (db/main.go lines 29-37): the canonical query
string, `none` when `UseFilter` panics. -/
def SelectQuery.String (s : SelectQuery) : Option String :=
  let q :=
    if s.Fields = [] then "SELECT * FROM " ++ s.TableName
    else "SELECT " ++ String.intercalate ", " s.Fields ++ " FROM " ++ s.TableName
  UseFilter s.Filter q

/-! ## Result cache

`DB.c` is a `sync.Map` from `CacheKey` to `any`. We model it as an
association list with at most one binding per key (`Store` replaces).
The stored `any` value is a decoded result slice; Go checks its
dynamic type with an assertion `cv.([]T)` before use, so we model the
value as a shape tag (the dynamic Go type) plus the opaque rows. -/

/-- `CacheKey` (db/main.go lines 12-15). -/
structure CacheKey where
  TableName : String
  Query : String
deriving DecidableEq

/-- A value stored in the cache: `shape` is the dynamic Go type of the
stored slice (e.g. `[]T` for `GeneralSelect[T]`,
`[]map[string]interface \x7b\x7d` for `GeneralSelectAny`), `rows` the
opaque decoded rows. -/
structure CVal where
  shape : String
  rows : List String
deriving DecidableEq

abbrev Cache := List (CacheKey × CVal)

/-- `sync.Map.Load`. -/
def cacheLoad (c : Cache) (k : CacheKey) : Option CVal :=
  (c.find? fun kv => kv.1 = k).map Prod.snd

/-- `sync.Map.Store`: replaces any existing binding for the key. -/
def cacheStore (c : Cache) (k : CacheKey) (v : CVal) : Cache :=
  (k, v) :: c.filter fun kv => kv.1 ≠ k

/-- `DB.clearCache` (db/main.go lines 121-128): `Range` over the map,
deleting every key whose `TableName` equals `t`. -/
def clearCache (c : Cache) (t : String) : Cache :=
  c.filter fun kv => kv.1.TableName ≠ t

/-- `DB.putQueryToCache` (db/main.go lines 103-108): stores under
`(s.TableName, s.String())`; `none` when `s.String()` panics. -/
def putQueryToCache (c : Cache) (s : SelectQuery) (v : CVal) : Option Cache :=
  s.String.map fun q => cacheStore c ⟨s.TableName, q⟩ v

/-- `DB.getQueryFromCache` (db/main.go lines 110-119): outer `none`
when `s.String()` panics; the inner option is hit/miss (the Go code
signals a miss with a non-nil error). -/
def getQueryFromCache (c : Cache) (s : SelectQuery) : Option (Option CVal) :=
  s.String.map fun q => cacheLoad c ⟨s.TableName, q⟩

/-! ## Data-access operations

The SurrealDB client is external; the operations are parametrised by
the outcome of the storage call exactly along the case split the Go
code performs on it. For selects, `d.s.Query` may fail
(`QueryResp.fail`), `surrealdb.UnmarshalRaw` may fail
(`QueryResp.decodeErr`), or the response decodes to a row list
(`QueryResp.result rows`). Per surrealdb.go v0.2.1's documented
`UnmarshalRaw` contract ("queries which return with results will
return ok = true, and queries which return with no results will return
ok = false"), the `ok` flag of a successful decode is `rows ≠ []`. -/

inductive QueryResp where
  | fail
  | decodeErr
  | result (rows : List String)
deriving DecidableEq

inductive SelectRes where
  | panics
  | error
  | rows (rs : List String)
deriving DecidableEq

/-- Outcome of a select: the returned value, the cache afterwards, and
how many times the storage backend was queried. -/
structure SelectOut where
  res : SelectRes
  cache : Cache
  storageCalls : Nat
deriving DecidableEq

/-- The storage-backed tail of `GeneralSelect` (db/main.go lines
172-186): run the query; on `Query` error or `UnmarshalRaw` error
return the error; when `ok` is false (empty result set) return the
empty slice WITHOUT caching; otherwise cache the decoded rows under
the key and return them. -/
def selectViaStorage (shape : String) (storage : String → QueryResp)
    (c : Cache) (k : CacheKey) (q : String) : SelectOut :=
  match storage q with
  | .fail => ⟨.error, c, 1⟩
  | .decodeErr => ⟨.error, c, 1⟩
  | .result rs =>
    if rs = [] then ⟨.rows [], c, 1⟩
    else ⟨.rows rs, cacheStore c k ⟨shape, rs⟩, 1⟩

/-- `GeneralSelect[T]` (db/main.go lines 163-187), with `shape` the
dynamic type `[]T` the cache hit is asserted against: on a hit whose
stored value has the expected shape, return it with no storage call;
on a miss, or a hit of the wrong shape, fall through to the storage
query. `res = .panics` models the `s.String()` panic (nil interface
filter). -/
def GeneralSelect (shape : String) (storage : String → QueryResp)
    (c : Cache) (s : SelectQuery) : SelectOut :=
  match s.String with
  | none => ⟨.panics, c, 0⟩
  | some q =>
    let k : CacheKey := ⟨s.TableName, q⟩
    match cacheLoad c k with
    | some v =>
      if v.shape = shape then ⟨.rows v.rows, c, 0⟩
      else selectViaStorage shape storage c k q
    | none => selectViaStorage shape storage c k q

/-- `GeneralSelectAny` (db/main.go lines 200-224): line for line the
body of `GeneralSelect` with the fixed result type
`[]map[string]interface \x7b\x7d`. -/
def GeneralSelectAny (storage : String → QueryResp) (c : Cache)
    (s : SelectQuery) : SelectOut :=
  GeneralSelect "[]map[string]any" storage c s

/-- Outcome the Go code distinguishes for a mutating storage call:
the call itself fails (`d.s.Create`/`Update`/`Change`/`Delete` returns
an error), `surrealdb.Unmarshal` on its response fails, or both
succeed. -/
inductive MutResp where
  | fail
  | decodeErr
  | ok
deriving DecidableEq

inductive MutRes where
  | error
  | ok
deriving DecidableEq

structure MutOut where
  res : MutRes
  cache : Cache
deriving DecidableEq

/-- `GeneralCreate[T]` (db/main.go lines 141-155), cache-relevant
behaviour: a storage error returns before anything else; an
`Unmarshal` error returns BEFORE `clearCache` runs; only the fully
successful path reaches `d.clearCache(thing)`. -/
def GeneralCreate (resp : MutResp) (c : Cache) (thing : String) : MutOut :=
  match resp with
  | .fail => ⟨.error, c⟩
  | .decodeErr => ⟨.error, c⟩
  | .ok => ⟨.ok, clearCache c thing⟩

/-- `strings.Split(id, ":")[0]` — the table component of a record id
(db/main.go lines 239, 257, 275). -/
def idTable (id : String) : String :=
  ⟨(splitChar ':' id.data).headD []⟩

/-- `GeneralUpdate[T]` (db/main.go lines 230-242): same cache
behaviour as `GeneralCreate`, clearing `strings.Split(id, ":")[0]` on
full success only. -/
def GeneralUpdate (resp : MutResp) (c : Cache) (id : String) : MutOut :=
  match resp with
  | .fail => ⟨.error, c⟩
  | .decodeErr => ⟨.error, c⟩
  | .ok => ⟨.ok, clearCache c (idTable id)⟩

/-- `GeneralChange[T]` (db/main.go lines 248-260). -/
def GeneralChange (resp : MutResp) (c : Cache) (id : String) : MutOut :=
  match resp with
  | .fail => ⟨.error, c⟩
  | .decodeErr => ⟨.error, c⟩
  | .ok => ⟨.ok, clearCache c (idTable id)⟩

/-- `GeneralDelete[T]` (db/main.go lines 266-278). -/
def GeneralDelete (resp : MutResp) (c : Cache) (id : String) : MutOut :=
  match resp with
  | .fail => ⟨.error, c⟩
  | .decodeErr => ⟨.error, c⟩
  | .ok => ⟨.ok, clearCache c (idTable id)⟩

/-! ## Transport response pools

`Transport` holds `errPool` and `okPool` (`sync.Pool`s whose `New`
functions build `&NATSError\x7b\x7d` and `&NATSOk\x7b\x7d`). A pool is
modelled as a list of the objects currently parked in it; `Get` takes
a parked object when one exists (which one is unspecified in Go — a
singleton pool makes it deterministic) and otherwise calls `New`. The
objects are Go pointers to either struct, modelled as a sum since the
code's type assertions on `Get` can meet either. -/

inductive PoolObj where
  | natsError (status : Int) (msg : String)
  | natsOk (status : Int) (body : String)
deriving DecidableEq

structure Pools where
  errPool : List PoolObj
  okPool : List PoolObj
deriving DecidableEq

/-- `sync.Pool.Get` with the pool's `New` result as fallback. -/
def poolGet (pool : List PoolObj) (fresh : PoolObj) : PoolObj × List PoolObj :=
  match pool with
  | [] => (fresh, [])
  | o :: rest => (o, rest)

/-- `Transport.getErrorFromPool` (src/unnamed/part_001 lines 3-8):
`t.errPool.Get().(*NATSError)` then set `Status`/`Error`. `none`
models the panic of the type assertion when the pooled object is a
`*NATSOk`. -/
def getErrorFromPool (t : Pools) (status : Int) (msg : String) :
    Option (PoolObj × Pools) :=
  match poolGet t.errPool (.natsError 0 "") with
  | (.natsError _ _, rest) => some (.natsError status msg, { t with errPool := rest })
  | (.natsOk _ _, _) => none

/-- `Transport.returnErrorToPool` (src/unnamed/part_001 lines 10-14):
zero the fields, then `t.errPool.Put(err)`. -/
def returnErrorToPool (t : Pools) : Pools :=
  { t with errPool := t.errPool ++ [.natsError 0 ""] }

/-- `Transport.getOkFromPool` (src/unnamed/part_001 lines 16-21):
`t.okPool.Get().(*NATSOk)` then set `Status`/`Body`. -/
def getOkFromPool (t : Pools) (status : Int) (body : String) :
    Option (PoolObj × Pools) :=
  match poolGet t.okPool (.natsOk 0 "") with
  | (.natsOk _ _, rest) => some (.natsOk status body, { t with okPool := rest })
  | (.natsError _ _, _) => none

/-- `Transport.returnOkToPool` (src/unnamed/part_001 lines 23-27):
zero the fields of the `*NATSOk`, then `t.errPool.Put(o)` — the ok
object is parked in the ERROR pool. -/
def returnOkToPool (t : Pools) : Pools :=
  { t with errPool := t.errPool ++ [.natsOk 0 ""] }

/-! ## Helper clause builders (used to state the clause-order theorem) -/

/-- The base query after the `WHERE` step of `UseFilter` (db/main.go
lines 318-320): unchanged when no predicate was emitted, otherwise
`q ++ " WHERE p1 AND ... AND pn"`. -/
def whereClause (q : String) (w : List String) : String :=
  if w = [] then q else q ++ " WHERE " ++ String.intercalate " AND " w

/-- The `GROUP BY` fragment `UseFilter` appends (db/main.go lines
322-324): present exactly when the struct has a non-nil field whose Go
identifier is `Group`. -/
def groupClause (fields : List FilterField) : String :=
  match fieldByName fields "Group" with
  | some fl =>
    match fl.value with
    | some v => " GROUP BY " ++ fmtS v
    | none => ""
  | none => ""

/-- The `LIMIT` fragment `UseFilter` appends last (db/main.go lines
326-328): present exactly when the struct has a non-nil field whose Go
identifier is `Limit`. -/
def limitClause (fields : List FilterField) : String :=
  match fieldByName fields "Limit" with
  | some fl =>
    match fl.value with
    | some v => " LIMIT " ++ fmtD v
    | none => ""
  | none => ""

theorem string_append_empty (s : String) : s ++ "" = s := by
  show String.mk (s.data ++ []) = s
  rw [List.append_nil]

theorem intercalate_singleton (sep a : String) :
    String.intercalate sep [a] = a := by
  show String.join ([a].intersperse sep) = a
  simp [String.join]

/-! ## Theorems for the claims -/

/-- C1, counterexample: the claim says an empty result set from
storage is cached under the descriptor's key so that a second
identical select does not invoke storage again. On the code, the
`!ok` branch of `GeneralSelect`/`GeneralSelectAny` (db/main.go lines
182-184, 219-221) returns the empty slice WITHOUT calling
`putQueryToCache`: starting from an empty cache, selecting a
descriptor whose query yields the empty result set leaves the cache
empty, and the second identical select performs a storage call again
(for both `GeneralSelect` and `GeneralSelectAny`). -/
theorem c1_empty_result_not_cached_cex :
    (GeneralSelect "[]user" (fun _ => .result []) []
        ((NewSelectAll "users").WithFilter .nilPtr)).cache = [] ∧
    (GeneralSelect "[]user" (fun _ => .result [])
        (GeneralSelect "[]user" (fun _ => .result []) []
          ((NewSelectAll "users").WithFilter .nilPtr)).cache
        ((NewSelectAll "users").WithFilter .nilPtr)).storageCalls = 1 ∧
    (GeneralSelectAny (fun _ => .result []) []
        ((NewSelectAll "users").WithFilter .nilPtr)).cache = [] ∧
    (GeneralSelectAny (fun _ => .result []) []
        ((NewSelectAll "users").WithFilter .nilPtr)).storageCalls = 1 := by
  decide

/-- C1, amended: when storage returns an empty result set for a
descriptor that is not in the cache, the select returns the empty
sequence, the cache is NOT modified (the empty result is not cached),
and a second identical select with no intervening write invokes
storage a second time. -/
theorem c1_empty_result_amended (shape : String) (storage : String → QueryResp)
    (c : Cache) (s : SelectQuery) (q : String)
    (hq : s.String = some q)
    (hmiss : cacheLoad c ⟨s.TableName, q⟩ = none)
    (hempty : storage q = .result []) :
    (GeneralSelect shape storage c s).res = .rows [] ∧
    (GeneralSelect shape storage c s).cache = c ∧
    (GeneralSelect shape storage c s).storageCalls = 1 ∧
    (GeneralSelect shape storage (GeneralSelect shape storage c s).cache s).storageCalls = 1 := by
  simp [GeneralSelect, hq, hmiss, selectViaStorage, hempty]

theorem c1_empty_result_amended_witness :
    ((NewSelectAll "users").WithFilter .nilPtr).String = some "SELECT * FROM users" ∧
    cacheLoad [] ⟨((NewSelectAll "users").WithFilter .nilPtr).TableName, "SELECT * FROM users"⟩ = none ∧
    (fun _ => QueryResp.result []) "SELECT * FROM users" = .result [] ∧
    ((GeneralSelect "[]user" (fun _ => QueryResp.result []) []
        ((NewSelectAll "users").WithFilter .nilPtr)).res = .rows [] ∧
      (GeneralSelect "[]user" (fun _ => QueryResp.result []) []
        ((NewSelectAll "users").WithFilter .nilPtr)).cache = [] ∧
      (GeneralSelect "[]user" (fun _ => QueryResp.result []) []
        ((NewSelectAll "users").WithFilter .nilPtr)).storageCalls = 1 ∧
      (GeneralSelect "[]user" (fun _ => QueryResp.result [])
        (GeneralSelect "[]user" (fun _ => QueryResp.result []) []
          ((NewSelectAll "users").WithFilter .nilPtr)).cache
        ((NewSelectAll "users").WithFilter .nilPtr)).storageCalls = 1) :=
  ⟨by decide, by decide, by decide,
    c1_empty_result_amended "[]user" (fun _ => QueryResp.result []) []
      ((NewSelectAll "users").WithFilter .nilPtr) "SELECT * FROM users"
      (by decide) (by decide) (by decide)⟩

/-- C2, counterexample: the claim says the cache for the affected
table is cleared whenever the storage call succeeds, including when
decoding the storage response fails. On the code, the `Unmarshal`
error path of every mutating operation (db/main.go lines 150-152,
236-238, 254-256, 272-274) returns BEFORE `d.clearCache` runs: after
`GeneralCreate` on table `users` whose storage call succeeded but
whose decode failed, a previously cached entry for `users` is still
present. -/
theorem c2_decode_failure_keeps_cache_cex :
    (GeneralCreate .decodeErr
        [(⟨"users", "SELECT * FROM users"⟩, ⟨"[]user", ["r1"]⟩)] "users").cache =
      [(⟨"users", "SELECT * FROM users"⟩, ⟨"[]user", ["r1"]⟩)] ∧
    cacheLoad (GeneralCreate .decodeErr
        [(⟨"users", "SELECT * FROM users"⟩, ⟨"[]user", ["r1"]⟩)] "users").cache
        ⟨"users", "SELECT * FROM users"⟩ = some ⟨"[]user", ["r1"]⟩ ∧
    (GeneralUpdate .decodeErr
        [(⟨"users", "SELECT * FROM users"⟩, ⟨"[]user", ["r1"]⟩)] "users:1").cache =
      [(⟨"users", "SELECT * FROM users"⟩, ⟨"[]user", ["r1"]⟩)] := by
  decide

/-- C2, amended: each of the four mutating operations leaves the cache
untouched when the storage call fails AND when decoding the storage
response fails, and clears the affected table's entries exactly when
both the storage call and decoding succeed. -/
theorem c2_invalidation_amended (c : Cache) (thing id : String) :
    (GeneralCreate .fail c thing).cache = c ∧
    (GeneralCreate .decodeErr c thing).cache = c ∧
    (GeneralCreate .ok c thing).cache = clearCache c thing ∧
    (GeneralUpdate .fail c id).cache = c ∧
    (GeneralUpdate .decodeErr c id).cache = c ∧
    (GeneralUpdate .ok c id).cache = clearCache c (idTable id) ∧
    (GeneralChange .fail c id).cache = c ∧
    (GeneralChange .decodeErr c id).cache = c ∧
    (GeneralChange .ok c id).cache = clearCache c (idTable id) ∧
    (GeneralDelete .fail c id).cache = c ∧
    (GeneralDelete .decodeErr c id).cache = c ∧
    (GeneralDelete .ok c id).cache = clearCache c (idTable id) :=
  ⟨rfl, rfl, rfl, rfl, rfl, rfl, rfl, rfl, rfl, rfl, rfl, rfl⟩

/-- C3: rendering a descriptor with no filter attached panics instead
of returning the base query. `NewSelectAll`/`NewSelect` leave `Filter`
as the untyped nil interface, and `UseFilter` then calls
`reflect.ValueOf(nil).IsNil()`, which panics on the zero
`reflect.Value` (db/main.go line 286). Only a TYPED nil pointer
filter returns the base query unchanged. -/
theorem c3_nil_filter_string_panics :
    SelectQuery.String (NewSelectAll "users") = none ∧
    SelectQuery.String (NewSelect "users" ["id", "name"]) = none ∧
    UseFilter .nilIface "SELECT * FROM users" = none ∧
    UseFilter .nilPtr "SELECT * FROM users" = some "SELECT * FROM users" := by
  decide

/-- C4, counterexample: the claim says a field with no declared
serialization tag uses the field's own identifier as column name. On
the code, `strings.Split(Tag.Get("json"), ",")[0]` is the empty
string when no tag is declared (db/main.go lines 299-301), so the
predicate is emitted with an EMPTY column name, not with the
identifier `Status`. -/
theorem c4_missing_tag_cex :
    UseFilter (.ptr [⟨"Status", "", some (.str "active")⟩]) "SELECT * FROM users" =
      some "SELECT * FROM users WHERE  = 'active'" ∧
    UseFilter (.ptr [⟨"Status", "", some (.str "active")⟩]) "SELECT * FROM users" ≠
      some "SELECT * FROM users WHERE Status = 'active'" := by
  decide

/-- C10: the pools are NOT shape-homogeneous. `returnOkToPool` parks
the `*NATSOk` in `errPool` (`t.errPool.Put(o)`, src/unnamed/part_001
line 26, where the function's own name and the symmetric
`returnErrorToPool` show `okPool.Put` was intended), so a later
`getErrorFromPool` draws a `*NATSOk` from `errPool` and its type
assertion `.(*NATSError)` panics, whereas from a clean pool it
succeeds. -/
theorem c10_ok_in_error_pool_panics :
    returnOkToPool ⟨[], []⟩ = ⟨[.natsOk 0 ""], []⟩ ∧
    getErrorFromPool (returnOkToPool ⟨[], []⟩) 500 "boom" = none ∧
    getErrorFromPool ⟨[], []⟩ 500 "boom" =
      some (.natsError 500 "boom", ⟨[], []⟩) := by
  decide

/-- C4, amended: the column name of an emitted predicate is the first
comma-separated component of the declared `json` tag; when no tag is
declared that component is the empty string — the field's own
identifier is never consulted for the column name. -/
theorem c4_column_name_amended (fl : FilterField) (q s : String)
    (hv : fl.value = some (.str s))
    (hl : tagName fl ≠ "limit") (hg : tagName fl ≠ "group")
    (hng : fl.name ≠ "Group") (hnl : fl.name ≠ "Limit") :
    UseFilter (.ptr [fl]) q =
      some (q ++ " WHERE " ++ (tagName fl ++ " = '" ++ s ++ "'")) ∧
    (fl.tag = "" → tagName fl = "") := by
  constructor
  · simp [UseFilter, fieldPred, hv, hl, hg, fieldByName, hng, hnl,
      intercalate_singleton]
  · intro h
    rcases fl with ⟨nm, tg, val⟩
    simp only at h
    subst h
    rfl

theorem c4_column_name_amended_witness :
    (⟨"Status", "status,omitempty", some (.str "active")⟩ : FilterField).value =
      some (.str "active") ∧
    tagName ⟨"Status", "status,omitempty", some (.str "active")⟩ ≠ "limit" ∧
    tagName ⟨"Status", "status,omitempty", some (.str "active")⟩ ≠ "group" ∧
    (⟨"Status", "status,omitempty", some (.str "active")⟩ : FilterField).name ≠ "Group" ∧
    (⟨"Status", "status,omitempty", some (.str "active")⟩ : FilterField).name ≠ "Limit" ∧
    (UseFilter (.ptr [⟨"Status", "status,omitempty", some (.str "active")⟩])
        "SELECT * FROM users" =
      some ("SELECT * FROM users" ++ " WHERE " ++
        (tagName ⟨"Status", "status,omitempty", some (.str "active")⟩ ++
          " = '" ++ "active" ++ "'")) ∧
      ((⟨"Status", "status,omitempty", some (.str "active")⟩ : FilterField).tag = "" →
        tagName ⟨"Status", "status,omitempty", some (.str "active")⟩ = "")) :=
  ⟨by decide, by decide, by decide, by decide, by decide,
    c4_column_name_amended ⟨"Status", "status,omitempty", some (.str "active")⟩
      "SELECT * FROM users" "active" (by decide) (by decide) (by decide)
      (by decide) (by decide)⟩

/-- C5: the reserved `limit`/`group` tag names never contribute a
`WHERE` predicate, and the output of the filter compiler is the base
query, then the `WHERE` clause joining the emitted predicates with
` AND ` in field-declaration order (only when at least one predicate
was emitted), then the `GROUP BY` clause for a present group selector,
then the `LIMIT` clause for a present limit selector — last,
regardless of whether `WHERE` or `GROUP BY` were emitted. -/
theorem c5_where_group_limit_order (fields : List FilterField) (q : String) :
    UseFilter (.ptr fields) q =
      some (whereClause q (fields.filterMap fieldPred) ++
        groupClause fields ++ limitClause fields) ∧
    ∀ fl ∈ fields, (tagName fl = "limit" ∨ tagName fl = "group") →
      fieldPred fl = none := by
  constructor
  · show some _ = some _
    congr 1
    unfold whereClause groupClause limitClause
    cases hG : fieldByName fields "Group" with
    | none =>
      cases hL : fieldByName fields "Limit" with
      | none => simp [string_append_empty]
      | some flL =>
        cases hvL : flL.value <;>
          simp [hvL, string_append_empty, String.append_assoc]
    | some flG =>
      cases hvG : flG.value with
      | none =>
        cases hL : fieldByName fields "Limit" with
        | none => simp [hvG, string_append_empty]
        | some flL =>
          cases hvL : flL.value <;>
            simp [hvG, hvL, string_append_empty, String.append_assoc]
      | some vG =>
        cases hL : fieldByName fields "Limit" with
        | none => simp [hvG, string_append_empty, String.append_assoc]
        | some flL =>
          cases hvL : flL.value <;>
            simp [hvG, hvL, string_append_empty, String.append_assoc]
  · intro fl _ h
    unfold fieldPred
    cases hv : fl.value with
    | none => rfl
    | some v => simp [h]

theorem c5_where_group_limit_order_witness :
    UseFilter (.ptr [⟨"IsAdmin", "isAdmin", some (.boolean true)⟩,
        ⟨"Group", "group", some (.str "role")⟩,
        ⟨"Limit", "limit", some (.int 5)⟩]) "SELECT * FROM users" =
      some (whereClause "SELECT * FROM users"
          ([⟨"IsAdmin", "isAdmin", some (.boolean true)⟩,
            ⟨"Group", "group", some (.str "role")⟩,
            ⟨"Limit", "limit", some (.int 5)⟩].filterMap fieldPred) ++
        groupClause [⟨"IsAdmin", "isAdmin", some (.boolean true)⟩,
            ⟨"Group", "group", some (.str "role")⟩,
            ⟨"Limit", "limit", some (.int 5)⟩] ++
        limitClause [⟨"IsAdmin", "isAdmin", some (.boolean true)⟩,
            ⟨"Group", "group", some (.str "role")⟩,
            ⟨"Limit", "limit", some (.int 5)⟩]) ∧
    ∀ fl ∈ ([⟨"IsAdmin", "isAdmin", some (.boolean true)⟩,
        ⟨"Group", "group", some (.str "role")⟩,
        ⟨"Limit", "limit", some (.int 5)⟩] : List FilterField),
      (tagName fl = "limit" ∨ tagName fl = "group") → fieldPred fl = none :=
  c5_where_group_limit_order
    [⟨"IsAdmin", "isAdmin", some (.boolean true)⟩,
      ⟨"Group", "group", some (.str "role")⟩,
      ⟨"Limit", "limit", some (.int 5)⟩] "SELECT * FROM users"

/-- C6: a cache hit whose stored value does not have the shape the
caller expects is neither an error nor returned: the select behaves
exactly as the cache-miss path, re-executing the query against
storage (one storage call). -/
theorem c6_shape_mismatch_is_miss (shape : String) (storage : String → QueryResp)
    (c : Cache) (s : SelectQuery) (q : String) (v : CVal)
    (hq : s.String = some q)
    (hhit : cacheLoad c ⟨s.TableName, q⟩ = some v)
    (hne : v.shape ≠ shape) :
    GeneralSelect shape storage c s =
      selectViaStorage shape storage c ⟨s.TableName, q⟩ q ∧
    (GeneralSelect shape storage c s).storageCalls = 1 := by
  have h1 : GeneralSelect shape storage c s =
      selectViaStorage shape storage c ⟨s.TableName, q⟩ q := by
    simp [GeneralSelect, hq, hhit, hne]
  refine ⟨h1, ?_⟩
  rw [h1]
  unfold selectViaStorage
  cases storage q with
  | fail => rfl
  | decodeErr => rfl
  | result rs =>
    by_cases hrs : rs = [] <;> simp [hrs]

theorem c6_shape_mismatch_is_miss_witness :
    ((NewSelectAll "users").WithFilter .nilPtr).String = some "SELECT * FROM users" ∧
    cacheLoad [(⟨"users", "SELECT * FROM users"⟩, ⟨"[]map", ["r"]⟩)]
      ⟨((NewSelectAll "users").WithFilter .nilPtr).TableName, "SELECT * FROM users"⟩ =
        some ⟨"[]map", ["r"]⟩ ∧
    (⟨"[]map", ["r"]⟩ : CVal).shape ≠ "[]user" ∧
    (GeneralSelect "[]user" (fun _ => QueryResp.fail)
        [(⟨"users", "SELECT * FROM users"⟩, ⟨"[]map", ["r"]⟩)]
        ((NewSelectAll "users").WithFilter .nilPtr) =
      selectViaStorage "[]user" (fun _ => QueryResp.fail)
        [(⟨"users", "SELECT * FROM users"⟩, ⟨"[]map", ["r"]⟩)]
        ⟨((NewSelectAll "users").WithFilter .nilPtr).TableName, "SELECT * FROM users"⟩
        "SELECT * FROM users" ∧
      (GeneralSelect "[]user" (fun _ => QueryResp.fail)
        [(⟨"users", "SELECT * FROM users"⟩, ⟨"[]map", ["r"]⟩)]
        ((NewSelectAll "users").WithFilter .nilPtr)).storageCalls = 1) :=
  ⟨by decide, by decide, by decide,
    c6_shape_mismatch_is_miss "[]user" (fun _ => QueryResp.fail)
      [(⟨"users", "SELECT * FROM users"⟩, ⟨"[]map", ["r"]⟩)]
      ((NewSelectAll "users").WithFilter .nilPtr) "SELECT * FROM users"
      ⟨"[]map", ["r"]⟩ (by decide) (by decide) (by decide)⟩

theorem cacheLoad_cons (kv : CacheKey × CVal) (c : Cache) (k : CacheKey) :
    cacheLoad (kv :: c) k = if kv.1 = k then some kv.2 else cacheLoad c k := by
  by_cases h : kv.1 = k
  · rw [if_pos h]
    simp [cacheLoad, List.find?_cons_of_pos, h]
  · rw [if_neg h]
    simp [cacheLoad, List.find?_cons_of_neg, h]

theorem clearCache_cons (kv : CacheKey × CVal) (c : Cache) (t : String) :
    clearCache (kv :: c) t =
      if kv.1.TableName = t then clearCache c t else kv :: clearCache c t := by
  by_cases h : kv.1.TableName = t <;> simp [clearCache, List.filter_cons, h]

/-- C7: after `clearCache t`, loading any key whose table component is
`t` misses, and loading any key whose table component differs is
unchanged. -/
theorem c7_invalidate_exact (c : Cache) (t : String) (k : CacheKey) :
    (k.TableName = t → cacheLoad (clearCache c t) k = none) ∧
    (k.TableName ≠ t → cacheLoad (clearCache c t) k = cacheLoad c k) := by
  constructor
  · intro h
    induction c with
    | nil => rfl
    | cons kv rest ih =>
      rw [clearCache_cons]
      by_cases hkv : kv.1.TableName = t
      · rw [if_pos hkv]; exact ih
      · rw [if_neg hkv, cacheLoad_cons,
          if_neg (fun he => hkv (by rw [he, h]))]
        exact ih
  · intro h
    induction c with
    | nil => rfl
    | cons kv rest ih =>
      rw [clearCache_cons]
      by_cases hkv : kv.1.TableName = t
      · rw [if_pos hkv, cacheLoad_cons,
          if_neg (fun he => h (by rw [← he]; exact hkv))]
        exact ih
      · rw [if_neg hkv, cacheLoad_cons, cacheLoad_cons]
        by_cases he : kv.1 = k
        · rw [if_pos he, if_pos he]
        · rw [if_neg he, if_neg he]
          exact ih

theorem c7_invalidate_exact_witness :
    cacheLoad (clearCache [(⟨"users", "Q1"⟩, ⟨"[]user", ["r"]⟩),
        (⟨"posts", "Q2"⟩, ⟨"[]post", ["p"]⟩)] "users") ⟨"users", "Q1"⟩ = none ∧
    cacheLoad (clearCache [(⟨"users", "Q1"⟩, ⟨"[]user", ["r"]⟩),
        (⟨"posts", "Q2"⟩, ⟨"[]post", ["p"]⟩)] "users") ⟨"posts", "Q2"⟩ =
      cacheLoad [(⟨"users", "Q1"⟩, ⟨"[]user", ["r"]⟩),
        (⟨"posts", "Q2"⟩, ⟨"[]post", ["p"]⟩)] ⟨"posts", "Q2"⟩ :=
  ⟨(c7_invalidate_exact [(⟨"users", "Q1"⟩, ⟨"[]user", ["r"]⟩),
      (⟨"posts", "Q2"⟩, ⟨"[]post", ["p"]⟩)] "users" ⟨"users", "Q1"⟩).1 (by decide),
    (c7_invalidate_exact [(⟨"users", "Q1"⟩, ⟨"[]user", ["r"]⟩),
      (⟨"posts", "Q2"⟩, ⟨"[]post", ["p"]⟩)] "users" ⟨"posts", "Q2"⟩).2 (by decide)⟩

theorem fieldPred_other (nm tg d : String) :
    fieldPred ⟨nm, tg, some (.other d)⟩ = none := by
  simp [fieldPred]

theorem fieldByName_append_skip (pre post : List FilterField)
    (fl : FilterField) (n : String) (h : fl.name ≠ n) :
    fieldByName (pre ++ fl :: post) n = fieldByName (pre ++ post) n := by
  induction pre with
  | nil => simp [fieldByName, List.find?_cons_of_neg, h]
  | cons a l ih =>
    by_cases ha : a.name = n
    · simp [fieldByName, List.cons_append, List.find?_cons_of_pos, ha]
    · simpa [fieldByName, List.cons_append, List.find?_cons_of_neg, ha] using ih

/-- C8: a present field whose scalar kind is not string, bool or int
falls out of the type switch with no predicate and no error; removing
it from the filter leaves the generated query identical, and the
compiler still succeeds. -/
theorem c8_unsupported_kind_skipped (pre post : List FilterField)
    (nm tg d q : String) (hng : nm ≠ "Group") (hnl : nm ≠ "Limit") :
    UseFilter (.ptr (pre ++ ⟨nm, tg, some (.other d)⟩ :: post)) q =
      UseFilter (.ptr (pre ++ post)) q ∧
    (UseFilter (.ptr (pre ++ ⟨nm, tg, some (.other d)⟩ :: post)) q).isSome := by
  refine ⟨?_, by simp [UseFilter]⟩
  have hw : (pre ++ (⟨nm, tg, some (.other d)⟩ : FilterField) :: post).filterMap fieldPred =
      (pre ++ post).filterMap fieldPred := by
    simp [List.filterMap_append, List.filterMap_cons, fieldPred_other]
  have hGf := fieldByName_append_skip pre post ⟨nm, tg, some (.other d)⟩ "Group" hng
  have hLf := fieldByName_append_skip pre post ⟨nm, tg, some (.other d)⟩ "Limit" hnl
  simp only [UseFilter, hw, hGf, hLf]

theorem c8_unsupported_kind_skipped_witness :
    "Score" ≠ "Group" ∧ "Score" ≠ "Limit" ∧
    (UseFilter (.ptr ([⟨"Status", "status", some (.str "active")⟩] ++
        ⟨"Score", "score", some (.other "3.14")⟩ :: [])) "SELECT * FROM users" =
      UseFilter (.ptr ([⟨"Status", "status", some (.str "active")⟩] ++ []))
        "SELECT * FROM users" ∧
      (UseFilter (.ptr ([⟨"Status", "status", some (.str "active")⟩] ++
        ⟨"Score", "score", some (.other "3.14")⟩ :: [])) "SELECT * FROM users").isSome) :=
  ⟨by decide, by decide,
    c8_unsupported_kind_skipped [⟨"Status", "status", some (.str "active")⟩] []
      "Score" "score" "3.14" "SELECT * FROM users" (by decide) (by decide)⟩

/-- C9: the canonical string is a deterministic function of the
descriptor's content — two descriptors with equal table, field list
and filter content render identically (including agreeing on whether
rendering panics). -/
theorem c9_render_deterministic (d1 d2 : SelectQuery)
    (ht : d1.TableName = d2.TableName) (hf : d1.Fields = d2.Fields)
    (hfl : d1.Filter = d2.Filter) :
    d1.String = d2.String := by
  have : d1 = d2 := by
    cases d1; cases d2; simp_all
  rw [this]

theorem c9_render_deterministic_witness :
    (NewSelectAll "users").TableName = (NewSelect "users" []).TableName ∧
    (NewSelectAll "users").Fields = (NewSelect "users" []).Fields ∧
    (NewSelectAll "users").Filter = (NewSelect "users" []).Filter ∧
    (NewSelectAll "users").String = (NewSelect "users" []).String :=
  ⟨by decide, by decide, by decide,
    c9_render_deterministic (NewSelectAll "users") (NewSelect "users" [])
      (by decide) (by decide) (by decide)⟩

end Nexus
